import Mathlib

/-!
Verification model of the bake-action argument synthesizer
(`src/context.ts`): the input record, the capability-gated
argument synthesis (`getArgs`, `getBakeArgs`, `getCommonArgs`),
source resolution (`getSourceInput`) and the attestation opt-out
predicate (`noDefaultAttestations`).

External collaborators (the buildx/buildkit version checks, the
handlebars template renderer, the metadata sink, the GitHub payload and
the provenance-attribute resolver) are modelled as oracle parameters,
following the collaborator contracts stated in the design document:
`versionSatisfies` compares a single detected semantic version against a
constraint, so it is monotone across the five constraints the code
queries.

The in-place JavaScript mutation `inputs.allow.push('fs=*')` is modelled
by returning the updated record alongside the token list: `getBakeArgs`
and `getArgs` return `Inputs × Except String (List String)`, where the
first component is the (possibly mutated) input record and the second is
either the thrown error message or the synthesized token list.
-/

set_option autoImplicit false

namespace BakeAction

/-- A semantic version `major.minor.patch`, the shape of the versions the
toolkit's `versionSatisfies` collaborator compares against constraints such
as `>=0.17.0`. -/
structure Version where
  major : Nat
  minor : Nat
  patch : Nat
deriving DecidableEq

/-- Model of the collaborator call to check a constraint: `versionSatisfies v c` stands for `versionSatisfies('>=c')` on a detected
tool version `v`: lexicographic comparison `v ≥ c`. -/
def versionSatisfies (v c : Version) : Bool :=
  decide (c.major < v.major) ||
    (decide (c.major = v.major) &&
      (decide (c.minor < v.minor) ||
        (decide (c.minor = v.minor) && decide (c.patch ≤ v.patch))))

def v0_6_0 : Version := ⟨0, 6, 0⟩
def v0_10_0 : Version := ⟨0, 10, 0⟩
def v0_11_0 : Version := ⟨0, 11, 0⟩
def v0_16_0 : Version := ⟨0, 16, 0⟩
def v0_17_0 : Version := ⟨0, 17, 0⟩
def v0_18_0 : Version := ⟨0, 18, 0⟩

/-- The `Inputs` interface of `src/context.ts` (hyphenated field names
rendered with underscores). -/
structure Inputs where
  builder : String
  workdir : String
  source : String
  allow : List String
  call : String
  files : List String
  no_cache : Bool
  pull : Bool
  load : Bool
  provenance : String
  push : Bool
  sbom : String
  set : List String
  targets : List String
  github_token : String
deriving DecidableEq

/-- The Bake Definition is opaque to the synthesizer: it is queried only
through `Bake.hasDockerExporter(definition, load)`, modelled as a Boolean
function of the load request. -/
structure BakeDefinition where
  hasDockerExporter : Bool → Bool

/-- The toolkit collaborator: the detected buildx (orchestrator) version,
the detected buildkit (backend) version for a given builder name, and the
metadata sink path `toolkit.buildxBake.getMetadataFilePath()`. -/
structure Toolkit where
  buildxVersion : Version
  buildkitVersion : String → Version
  metadataFilePath : String

/-- Ambient process environment and the external helpers it feeds:
the `BUILDX_NO_DEFAULT_ATTESTATIONS` variable (absent = `none`),
`Util.parseBool` and `Build.resolveProvenanceAttrs`. -/
structure Env where
  buildxNoDefaultAttestations : Option String
  parseBool : String → Bool
  resolveProvenanceAttrs : String → String

/-- The GitHub context payload: `payload.repository?.private` collapses the
missing-repository and missing-field cases into `none`. -/
structure GitHubCtx where
  repositoryPrivate : Option Bool

/-- Embedding of `noDefaultAttestations()` of `src/context.ts`: a set, non-empty (hence
truthy) environment variable is parsed with `Util.parseBool`; otherwise
the opt-out is off. -/
def noDefaultAttestations (env : Env) : Bool :=
  match env.buildxNoDefaultAttestations with
  | some s => if s = "" then false else env.parseBool s
  | none => false

/-- Lines 66-69: under the `>=0.17.0` gate, a `>=0.18.0` orchestrator gets
the implicit filesystem entitlement appended to `allow` (the JS
`inputs.allow.push('fs=*')`, modelled as producing the updated record). -/
def mutateAllowInputs (inputs : Inputs) (tk : Toolkit) : Inputs :=
  if versionSatisfies tk.buildxVersion v0_17_0 then
    if versionSatisfies tk.buildxVersion v0_18_0 then
      { inputs with allow := inputs.allow ++ ["fs=*"] }
    else inputs
  else inputs

/-- Lines 62-64: the positional source token, emitted only when `source` is
truthy (non-empty). -/
def sourceArgs (inputs : Inputs) : List String :=
  if inputs.source = "" then [] else [inputs.source]

/-- Lines 65-73: one `--allow <value>` pair per entitlement, only under the
`>=0.17.0` gate (applied to the already-mutated record). -/
def allowArgs (inputs : Inputs) (tk : Toolkit) : List String :=
  if versionSatisfies tk.buildxVersion v0_17_0 then
    inputs.allow.flatMap (fun a => ["--allow", a])
  else []

/-- Line 78: the `--call <value>` pair for a truthy `call` (the `>=0.16.0`
check is in `getBakeArgs`, which throws before reaching this emission). -/
def callArgs (inputs : Inputs) : List String :=
  if inputs.call = "" then [] else ["--call", inputs.call]

/-- Lines 80-82: one `--file <path>` pair per entry of `files`. -/
def fileArgs (inputs : Inputs) : List String :=
  inputs.files.flatMap (fun f => ["--file", f])

/-- Lines 83-85: one `--set <expr>` pair per entry of `set`. -/
def setArgs (inputs : Inputs) : List String :=
  inputs.set.flatMap (fun s => ["--set", s])

/-- Lines 86-88: the metadata sink pair under the `>=0.6.0` gate. -/
def metadataArgs (tk : Toolkit) : List String :=
  if versionSatisfies tk.buildxVersion v0_6_0 then
    ["--metadata-file", tk.metadataFilePath]
  else []

/-- Lines 90-104: explicit `--provenance` passthrough, else the default
attestation policy (opt-out unset, buildkit `>=0.11.0`, no docker exporter
given the load request; value by repository visibility). -/
def provenanceArgs (inputs : Inputs) (definition : BakeDefinition)
    (tk : Toolkit) (env : Env) (gh : GitHubCtx) : List String :=
  if inputs.provenance = "" then
    if !(noDefaultAttestations env) &&
        versionSatisfies (tk.buildkitVersion inputs.builder) v0_11_0 &&
        !(definition.hasDockerExporter inputs.load) then
      if gh.repositoryPrivate.getD false then
        ["--provenance", env.resolveProvenanceAttrs ("mode=min,inline-only=true")]
      else
        ["--provenance", env.resolveProvenanceAttrs ("mode=max")]
    else []
  else ["--provenance", inputs.provenance]

/-- Lines 105-107: the `--sbom <value>` pair for a truthy `sbom`. -/
def sbomArgs (inputs : Inputs) : List String :=
  if inputs.sbom = "" then [] else ["--sbom", inputs.sbom]

/-- Lines 89-108: the `>=0.10.0` gate around provenance and sbom emission. -/
def attestationArgs (inputs : Inputs) (definition : BakeDefinition)
    (tk : Toolkit) (env : Env) (gh : GitHubCtx) : List String :=
  if versionSatisfies tk.buildxVersion v0_10_0 then
    provenanceArgs inputs definition tk env gh ++ sbomArgs inputs
  else []

/-- The token list `getBakeArgs` accumulates on its non-throwing path, in
the emission order of lines 61-108. -/
def bakeTokens (inputs : Inputs) (definition : BakeDefinition)
    (tk : Toolkit) (env : Env) (gh : GitHubCtx) : List String :=
  ["bake"] ++ sourceArgs inputs ++ allowArgs inputs tk ++
    callArgs inputs ++ fileArgs inputs ++ setArgs inputs ++
    metadataArgs tk ++ attestationArgs inputs definition tk env gh

/-- Embedding of `getBakeArgs` (lines 60-110). The record is mutated first (the source
performs the push before emitting `--allow` pairs; no emission reads a
field the mutation touches other than `allow` itself). A truthy `call`
with an orchestrator below 0.16.0 throws; the mutation has already
happened when the throw occurs, so the updated record is returned on both
paths. -/
def getBakeArgs (inputs : Inputs) (definition : BakeDefinition)
    (tk : Toolkit) (env : Env) (gh : GitHubCtx) :
    Inputs × Except String (List String) :=
  let inputs2 := mutateAllowInputs inputs tk
  if inputs2.call ≠ "" && !(versionSatisfies tk.buildxVersion v0_16_0) then
    (inputs2, Except.error ("Buildx >= 0.16.0 is required to use the call flag."))
  else
    (inputs2, Except.ok (bakeTokens inputs2 definition tk env gh))

/-- Embedding of `getCommonArgs` (lines 112-130). -/
def getCommonArgs (inputs : Inputs) : List String :=
  (if inputs.no_cache then ["--no-cache"] else []) ++
    (if inputs.builder = "" then [] else ["--builder", inputs.builder]) ++
    (if inputs.pull then ["--pull"] else []) ++
    (if inputs.load then ["--load"] else []) ++
    (if inputs.push then ["--push"] else [])

/-- Embedding of `getArgs` (lines 51-58): bake args, common args, then the raw targets.
The common args and targets are read from the record after `getBakeArgs`
has run, matching the JS aliasing of the single `inputs` object. -/
def getArgs (inputs : Inputs) (definition : BakeDefinition)
    (tk : Toolkit) (env : Env) (gh : GitHubCtx) :
    Inputs × Except String (List String) :=
  match getBakeArgs inputs definition tk env gh with
  | (inputs2, Except.error e) => (inputs2, Except.error e)
  | (inputs2, Except.ok bakeArgs) =>
      (inputs2, Except.ok (bakeArgs ++ getCommonArgs inputs2 ++ inputs2.targets))

/-- Embedding of `getSourceInput` (lines 132-143). The handlebars compile-and-render
step is an oracle `render : template → ambient context → Except error
output`; the source has no catch around it, so a render error is
returned as-is. A falsy (empty) render result falls back to the ambient
context, and a final literal `.` collapses to the empty string. -/
def getSourceInput (render : String → String → Except String String)
    (rawInput : String) (gitContext : String) : Except String String :=
  match render rawInput gitContext with
  | Except.error e => Except.error e
  | Except.ok s =>
      let s2 := if s = "" then gitContext else s
      Except.ok (if s2 = "." then "" else s2)

/-- Observer used to talk about "the values emitted after `--allow`
tokens": collects the token following each occurrence of `flag`. -/
def valuesOfFlag (flag : String) : List String → List String
  | a :: b :: rest =>
      if a = flag then b :: valuesOfFlag flag rest
      else valuesOfFlag flag (b :: rest)
  | _ => []

/-! ### Concrete fixtures used by examples, witnesses and counterexamples -/

/-- All-default input record: empty strings and lists, `workdir` at its
default `.`, every toggle off. -/
def emptyInputs : Inputs where
  builder := ""
  workdir := "."
  source := ""
  allow := []
  call := ""
  files := []
  no_cache := false
  pull := false
  load := false
  provenance := ""
  push := false
  sbom := ""
  set := []
  targets := []
  github_token := ""

/-- A toolkit whose orchestrator reports version `v` and whose backend
reports 0.11.0 for every builder. -/
def mkToolkit (v : Version) : Toolkit where
  buildxVersion := v
  buildkitVersion := fun _ => v0_11_0
  metadataFilePath := "md"

/-- Environment with the attestation opt-out unset. -/
def plainEnv : Env where
  buildxNoDefaultAttestations := none
  parseBool := fun _ => false
  resolveProvenanceAttrs := fun s => s

/-- Environment with the attestation opt-out set (variable present, parsed
truthy). -/
def optOutEnv : Env where
  buildxNoDefaultAttestations := some "1"
  parseBool := fun _ => true
  resolveProvenanceAttrs := fun s => s

/-- Public-repository GitHub payload. -/
def publicGitHub : GitHubCtx := ⟨some false⟩

/-- Private-repository GitHub payload. -/
def privateGitHub : GitHubCtx := ⟨some true⟩

/-- A Bake Definition with no direct-to-engine (docker) exporter. -/
def noExporterDef : BakeDefinition := ⟨fun _ => false⟩

/-- A Bake Definition using a direct-to-engine (docker) exporter. -/
def dockerExporterDef : BakeDefinition := ⟨fun _ => true⟩

/-! ### Helper lemmas -/

/-- Monotonicity of the capability oracle across the two entitlement
constraints: a version at least 0.18.0 is at least 0.17.0. -/
theorem versionSatisfies_18_17 (v : Version)
    (h : versionSatisfies v v0_18_0 = true) :
    versionSatisfies v v0_17_0 = true := by
  simp only [versionSatisfies, v0_18_0, v0_17_0, Bool.or_eq_true,
    Bool.and_eq_true, decide_eq_true_eq] at h ⊢
  omega

/-- The mutation step in closed form: `allow` gains a trailing `fs=*`
exactly when the orchestrator is at least 0.18.0 (the enclosing 0.17.0
gate is implied by monotonicity). -/
theorem mutateAllowInputs_eq (i : Inputs) (tk : Toolkit) :
    mutateAllowInputs i tk =
      if versionSatisfies tk.buildxVersion v0_18_0 then
        { i with allow := i.allow ++ ["fs=*"] }
      else i := by
  unfold mutateAllowInputs
  cases h18 : versionSatisfies tk.buildxVersion v0_18_0 with
  | true => simp [versionSatisfies_18_17 _ h18, h18]
  | false =>
      cases h17 : versionSatisfies tk.buildxVersion v0_17_0 <;> simp [h18]

theorem mutate_call (i : Inputs) (tk : Toolkit) :
    (mutateAllowInputs i tk).call = i.call := by
  rw [mutateAllowInputs_eq]; split <;> rfl

theorem mutate_targets (i : Inputs) (tk : Toolkit) :
    (mutateAllowInputs i tk).targets = i.targets := by
  rw [mutateAllowInputs_eq]; split <;> rfl

theorem getCommonArgs_mutate (i : Inputs) (tk : Toolkit) :
    getCommonArgs (mutateAllowInputs i tk) = getCommonArgs i := by
  rw [mutateAllowInputs_eq]; split <;> rfl

theorem sourceArgs_mutate (i : Inputs) (tk : Toolkit) :
    sourceArgs (mutateAllowInputs i tk) = sourceArgs i := by
  rw [mutateAllowInputs_eq]; split <;> rfl

theorem callArgs_mutate (i : Inputs) (tk : Toolkit) :
    callArgs (mutateAllowInputs i tk) = callArgs i := by
  rw [mutateAllowInputs_eq]; split <;> rfl

theorem fileArgs_mutate (i : Inputs) (tk : Toolkit) :
    fileArgs (mutateAllowInputs i tk) = fileArgs i := by
  rw [mutateAllowInputs_eq]; split <;> rfl

theorem setArgs_mutate (i : Inputs) (tk : Toolkit) :
    setArgs (mutateAllowInputs i tk) = setArgs i := by
  rw [mutateAllowInputs_eq]; split <;> rfl

theorem sbomArgs_mutate (i : Inputs) (tk : Toolkit) :
    sbomArgs (mutateAllowInputs i tk) = sbomArgs i := by
  rw [mutateAllowInputs_eq]; split <;> rfl

theorem provenanceArgs_mutate (i : Inputs) (d : BakeDefinition)
    (tk : Toolkit) (env : Env) (gh : GitHubCtx) :
    provenanceArgs (mutateAllowInputs i tk) d tk env gh =
      provenanceArgs i d tk env gh := by
  rw [mutateAllowInputs_eq]; split <;> rfl

theorem attestationArgs_mutate (i : Inputs) (d : BakeDefinition)
    (tk : Toolkit) (env : Env) (gh : GitHubCtx) :
    attestationArgs (mutateAllowInputs i tk) d tk env gh =
      attestationArgs i d tk env gh := by
  rw [mutateAllowInputs_eq]; split <;> rfl

/-- The synthesizer in closed form, separating the throwing guard from the
token concatenation. -/
theorem getArgs_eq (i : Inputs) (d : BakeDefinition) (tk : Toolkit)
    (env : Env) (gh : GitHubCtx) :
    getArgs i d tk env gh =
      (mutateAllowInputs i tk,
        if (mutateAllowInputs i tk).call ≠ "" ∧
            versionSatisfies tk.buildxVersion v0_16_0 = false then
          Except.error ("Buildx >= 0.16.0 is required to use the call flag.")
        else
          Except.ok (bakeTokens (mutateAllowInputs i tk) d tk env gh ++
            getCommonArgs (mutateAllowInputs i tk) ++
            (mutateAllowInputs i tk).targets)) := by
  unfold getArgs getBakeArgs
  by_cases hg : (mutateAllowInputs i tk).call ≠ "" ∧
      versionSatisfies tk.buildxVersion v0_16_0 = false
  · rw [if_pos hg]
    have hb : (decide ¬(mutateAllowInputs i tk).call = "" &&
        !versionSatisfies tk.buildxVersion v0_16_0) = true := by
      simp [hg.1, hg.2]
    simp only [hb, if_true]
  · rw [if_neg hg]
    have hb : (decide ¬(mutateAllowInputs i tk).call = "" &&
        !versionSatisfies tk.buildxVersion v0_16_0) = false := by
      rcases not_and_or.mp hg with h | h
      · simp [not_not.mp (fun hc => h hc)]
      · have hv : versionSatisfies tk.buildxVersion v0_16_0 = true := by
          cases hv0 : versionSatisfies tk.buildxVersion v0_16_0
          · exact absurd hv0 h
          · rfl
        simp [hv]
    simp only [hb, Bool.false_eq_true, if_false]

/-! ### Claims -/

/-- Input record of the end-to-end example: only `files`, `load` and
`targets` set. -/
def c1Inputs : Inputs :=
  { emptyInputs with files := ["docker-bake.hcl"], load := true, targets := ["app"] }

/-- C1: for the example input record, a 0.18.0 orchestrator, a 0.11.0
backend, the opt-out unset, a definition using a direct-to-engine exporter
under `load = true` and a public repository, `getArgs` returns exactly
`["bake", "--allow", "fs=*", "--file", "docker-bake.hcl",
"--metadata-file", p, "--load", "app"]` for the metadata-sink path `p`,
with no `--provenance` token. -/
theorem getArgs_end_to_end_example (p : String) :
    getArgs c1Inputs dockerExporterDef
        { buildxVersion := v0_18_0, buildkitVersion := fun _ => v0_11_0,
          metadataFilePath := p }
        plainEnv publicGitHub =
      ({ c1Inputs with allow := ["fs=*"] },
        Except.ok ["bake", "--allow", "fs=*", "--file", "docker-bake.hcl",
          "--metadata-file", p, "--load", "app"]) ∧
    (p ≠ "--provenance" →
      "--provenance" ∉ ["bake", "--allow", "fs=*", "--file", "docker-bake.hcl",
        "--metadata-file", p, "--load", "app"]) := by
  refine ⟨rfl, ?_⟩
  intro hp hmem
  simp only [List.mem_cons, List.not_mem_nil, or_false] at hmem
  rcases hmem with h | h | h | h | h | h | h | h | h
  all_goals first
    | exact absurd h (by decide)
    | exact hp h.symm

/-- Witness for C1 at the concrete metadata path `md`. -/
theorem getArgs_end_to_end_example_witness :
    getArgs c1Inputs dockerExporterDef
        { buildxVersion := v0_18_0, buildkitVersion := fun _ => v0_11_0,
          metadataFilePath := "md" }
        plainEnv publicGitHub =
      ({ c1Inputs with allow := ["fs=*"] },
        Except.ok ["bake", "--allow", "fs=*", "--file", "docker-bake.hcl",
          "--metadata-file", "md", "--load", "app"]) ∧
    "--provenance" ∉ ["bake", "--allow", "fs=*", "--file", "docker-bake.hcl",
      "--metadata-file", "md", "--load", "app"] :=
  ⟨(getArgs_end_to_end_example ("md")).1,
    (getArgs_end_to_end_example ("md")).2 (by decide)⟩

/-- C2: whenever `getBakeArgs` succeeds, `getArgs` is exactly the
concatenation of the bake-specific arguments, the common arguments and the
verbatim target list, in that order. -/
theorem getArgs_phase_concatenation (i : Inputs) (d : BakeDefinition)
    (tk : Toolkit) (env : Env) (gh : GitHubCtx) (i2 : Inputs)
    (bargs : List String)
    (h : getBakeArgs i d tk env gh = (i2, Except.ok bargs)) :
    getArgs i d tk env gh =
      (i2, Except.ok (bargs ++ getCommonArgs i ++ i.targets)) := by
  have h2 : (getBakeArgs i d tk env gh).fst = mutateAllowInputs i tk := by
    unfold getBakeArgs
    dsimp only
    split <;> rfl
  rw [h] at h2
  dsimp only at h2
  unfold getArgs
  rw [h]
  dsimp only
  rw [h2, getCommonArgs_mutate, mutate_targets]

/-- Witness for C2: the all-default record on a 0.0.0 orchestrator. -/
theorem getArgs_phase_concatenation_witness :
    getArgs emptyInputs noExporterDef (mkToolkit ⟨0, 0, 0⟩) plainEnv
        publicGitHub =
      (emptyInputs,
        Except.ok (["bake"] ++ getCommonArgs emptyInputs ++
          emptyInputs.targets)) :=
  getArgs_phase_concatenation emptyInputs noExporterDef (mkToolkit ⟨0, 0, 0⟩)
    plainEnv publicGitHub emptyInputs ["bake"] rfl

/-- C3: synthesis fails exactly when `call` is truthy and the orchestrator
is below 0.16.0 (and then no token list exists); with `call` truthy and the
capability met, the consecutive tokens `--call <value>` appear in the
output. -/
theorem call_capability_gate (i : Inputs) (d : BakeDefinition) (tk : Toolkit)
    (env : Env) (gh : GitHubCtx) :
    ((∃ e, (getArgs i d tk env gh).snd = Except.error e) ↔
      (i.call ≠ "" ∧ versionSatisfies tk.buildxVersion v0_16_0 = false)) ∧
    (i.call ≠ "" → versionSatisfies tk.buildxVersion v0_16_0 = true →
      ∃ l, (getArgs i d tk env gh).snd = Except.ok l ∧
        List.IsInfix ["--call", i.call] l) := by
  rw [getArgs_eq, mutate_call]
  by_cases hc : i.call ≠ "" ∧ versionSatisfies tk.buildxVersion v0_16_0 = false
  · rw [if_pos hc]
    refine ⟨⟨fun _ => hc, fun _ => ⟨_, rfl⟩⟩, ?_⟩
    intro _ h16
    rw [hc.2] at h16
    cases h16
  · rw [if_neg hc]
    refine ⟨⟨?_, fun hab => absurd hab hc⟩, ?_⟩
    · rintro ⟨e, he⟩
      cases he
    · intro hcall h16
      refine ⟨_, rfl, ?_⟩
      have hcallArgs : callArgs (mutateAllowInputs i tk) = ["--call", i.call] := by
        rw [callArgs_mutate]
        unfold callArgs
        rw [if_neg hcall]
      refine ⟨["bake"] ++ sourceArgs (mutateAllowInputs i tk) ++
          allowArgs (mutateAllowInputs i tk) tk,
        fileArgs (mutateAllowInputs i tk) ++ setArgs (mutateAllowInputs i tk) ++
          metadataArgs tk ++
          attestationArgs (mutateAllowInputs i tk) d tk env gh ++
          getCommonArgs (mutateAllowInputs i tk) ++
          (mutateAllowInputs i tk).targets, ?_⟩
      rw [← hcallArgs]
      unfold bakeTokens
      simp [List.append_assoc]

/-- Witness for C3: `call = check` on a 0.16.0 orchestrator yields a token
list containing the consecutive pair. -/
theorem call_capability_gate_witness :
    ∃ l, (getArgs { emptyInputs with call := "check" } noExporterDef
        (mkToolkit ⟨0, 16, 0⟩) plainEnv publicGitHub).snd = Except.ok l ∧
      List.IsInfix ["--call", ({ emptyInputs with call := "check" } : Inputs).call] l :=
  (call_capability_gate { emptyInputs with call := "check" } noExporterDef
      (mkToolkit ⟨0, 16, 0⟩) plainEnv publicGitHub).2 (by decide) rfl

/-- C9: the `fs=*` push is a real mutation of the input record, so
synthesis is not idempotent at 0.18.0: rerunning `getArgs` on the record
returned by a first run emits the `--allow fs=*` pair twice and produces a
different token list. -/
theorem getArgs_not_idempotent :
    (getArgs emptyInputs dockerExporterDef (mkToolkit v0_18_0) plainEnv
        publicGitHub).snd =
      Except.ok ["bake", "--allow", "fs=*", "--metadata-file", "md"] ∧
    (getArgs (getArgs emptyInputs dockerExporterDef (mkToolkit v0_18_0)
          plainEnv publicGitHub).fst
        dockerExporterDef (mkToolkit v0_18_0) plainEnv publicGitHub).snd =
      Except.ok ["bake", "--allow", "fs=*", "--allow", "fs=*",
        "--metadata-file", "md"] ∧
    valuesOfFlag ("--allow")
        ["bake", "--allow", "fs=*", "--allow", "fs=*", "--metadata-file",
          "md"] =
      ["fs=*", "fs=*"] ∧
    ["bake", "--allow", "fs=*", "--allow", "fs=*", "--metadata-file", "md"] ≠
      ["bake", "--allow", "fs=*", "--metadata-file", "md"] :=
  ⟨rfl, rfl, rfl, by decide⟩

/-- C10: `getArgs` returns the input record unchanged except that `allow`
gains the single trailing element `fs=*`, exactly when the orchestrator is
at least 0.18.0. -/
theorem getArgs_frame (i : Inputs) (d : BakeDefinition) (tk : Toolkit)
    (env : Env) (gh : GitHubCtx) :
    (getArgs i d tk env gh).fst =
      if versionSatisfies tk.buildxVersion v0_18_0 then
        { i with allow := i.allow ++ ["fs=*"] }
      else i := by
  rw [getArgs_eq]
  exact mutateAllowInputs_eq i tk

/-- Input record whose user-supplied `allow` list already contains the
implicit entitlement. -/
def c4Inputs : Inputs := { emptyInputs with allow := ["fs=*"] }

/-- Counterexample to C4 as stated: with `fs=*` already in the
user-supplied allow list and a 0.18.0 orchestrator, the value `fs=*`
appears twice, not exactly once, among the values emitted after `--allow`
tokens. -/
theorem implicit_fs_entitlement_counterexample :
    (getArgs c4Inputs dockerExporterDef (mkToolkit v0_18_0) plainEnv
        publicGitHub).snd =
      Except.ok ["bake", "--allow", "fs=*", "--allow", "fs=*",
        "--metadata-file", "md"] ∧
    List.count ("fs=*") (valuesOfFlag ("--allow")
        ["bake", "--allow", "fs=*", "--allow", "fs=*", "--metadata-file",
          "md"]) = 2 :=
  ⟨rfl, rfl⟩

/-- C4 (amended): at 0.18.0 the value `fs=*` is always among the emitted
`--allow` values, occurring exactly once more than in the user-supplied
list — hence exactly once when (and only when) the user did not already
supply it. -/
theorem implicit_fs_entitlement (i : Inputs) (d : BakeDefinition)
    (tk : Toolkit) (env : Env) (gh : GitHubCtx)
    (h18 : versionSatisfies tk.buildxVersion v0_18_0 = true) :
    (getArgs i d tk env gh).fst.allow = i.allow ++ ["fs=*"] ∧
    List.count ("fs=*") (getArgs i d tk env gh).fst.allow =
      List.count ("fs=*") i.allow + 1 ∧
    ∀ l, (getArgs i d tk env gh).snd = Except.ok l →
      List.IsInfix ((i.allow ++ ["fs=*"]).flatMap (fun a => ["--allow", a]))
        l := by
  have h17 := versionSatisfies_18_17 _ h18
  have hm : mutateAllowInputs i tk = { i with allow := i.allow ++ ["fs=*"] } := by
    rw [mutateAllowInputs_eq, h18]
    rfl
  have hall : allowArgs (mutateAllowInputs i tk) tk =
      (i.allow ++ ["fs=*"]).flatMap (fun a => ["--allow", a]) := by
    unfold allowArgs
    rw [h17, hm]
    rfl
  refine ⟨?_, ?_, ?_⟩
  · rw [getArgs_eq, hm]
  · rw [getArgs_eq, hm]
    simp [List.count_append]
  · intro l hl
    rw [getArgs_eq] at hl
    dsimp only at hl
    by_cases hg : (mutateAllowInputs i tk).call ≠ "" ∧
        versionSatisfies tk.buildxVersion v0_16_0 = false
    · rw [if_pos hg] at hl
      cases hl
    · rw [if_neg hg] at hl
      injection hl with hl
      subst hl
      refine ⟨["bake"] ++ sourceArgs (mutateAllowInputs i tk),
        callArgs (mutateAllowInputs i tk) ++
          fileArgs (mutateAllowInputs i tk) ++
          setArgs (mutateAllowInputs i tk) ++ metadataArgs tk ++
          attestationArgs (mutateAllowInputs i tk) d tk env gh ++
          getCommonArgs (mutateAllowInputs i tk) ++
          (mutateAllowInputs i tk).targets, ?_⟩
      rw [← hall]
      unfold bakeTokens
      simp [List.append_assoc]

/-- Witness for C4 (amended) with `allow = [a]` on a 0.18.0 orchestrator. -/
theorem implicit_fs_entitlement_witness :
    (getArgs { emptyInputs with allow := ["a"] } dockerExporterDef
        (mkToolkit v0_18_0) plainEnv publicGitHub).fst.allow =
      ["a"] ++ ["fs=*"] ∧
    List.count ("fs=*") (getArgs { emptyInputs with allow := ["a"] }
        dockerExporterDef (mkToolkit v0_18_0) plainEnv
        publicGitHub).fst.allow =
      List.count ("fs=*") ["a"] + 1 ∧
    List.IsInfix ((["a"] ++ ["fs=*"]).flatMap (fun a => ["--allow", a]))
      ["bake", "--allow", "a", "--allow", "fs=*", "--metadata-file", "md"] := by
  have h := implicit_fs_entitlement { emptyInputs with allow := ["a"] }
    dockerExporterDef (mkToolkit v0_18_0) plainEnv publicGitHub rfl
  exact ⟨h.1, h.2.1, h.2.2 _ rfl⟩

/-- Input record with a non-empty allow list and the literal `--allow` as a
target name. -/
def c5Inputs : Inputs := { emptyInputs with allow := ["x"], targets := ["--allow"] }

/-- Counterexample to C5 as stated: below 0.17.0 the allow list indeed
contributes nothing, but the literal token `--allow` can still appear in
the output of `getArgs` — here injected verbatim through `targets`. -/
theorem allow_gate_counterexample :
    c5Inputs.allow ≠ [] ∧
    versionSatisfies (mkToolkit ⟨0, 5, 0⟩).buildxVersion v0_17_0 = false ∧
    (getArgs c5Inputs noExporterDef (mkToolkit ⟨0, 5, 0⟩) plainEnv
        publicGitHub).snd =
      Except.ok ["bake", "--allow"] ∧
    "--allow" ∈ ["bake", "--allow"] :=
  ⟨by decide, rfl, rfl, by decide⟩

/-- C5 (amended): below 0.17.0 the allow list is not mutated and
contributes no tokens — the output is identical to the output for an empty
allow list (the literal `--allow` can still be injected by other fields
such as `targets`). -/
theorem allow_gate (i : Inputs) (d : BakeDefinition) (tk : Toolkit)
    (env : Env) (gh : GitHubCtx)
    (h17 : versionSatisfies tk.buildxVersion v0_17_0 = false) :
    (getArgs i d tk env gh).fst = i ∧
    (getArgs i d tk env gh).snd =
      (getArgs { i with allow := [] } d tk env gh).snd := by
  have h18 : versionSatisfies tk.buildxVersion v0_18_0 = false := by
    cases h : versionSatisfies tk.buildxVersion v0_18_0
    · rfl
    · exact absurd (versionSatisfies_18_17 _ h) (by simp [h17])
  have hm : mutateAllowInputs i tk = i := by
    rw [mutateAllowInputs_eq, h18]
    rfl
  have hm2 : mutateAllowInputs { i with allow := [] } tk =
      { i with allow := [] } := by
    rw [mutateAllowInputs_eq, h18]
    rfl
  have hb : bakeTokens i d tk env gh =
      bakeTokens { i with allow := [] } d tk env gh := by
    unfold bakeTokens allowArgs
    rw [h17]
    rfl
  refine ⟨?_, ?_⟩
  · rw [getArgs_eq, hm]
  · rw [getArgs_eq, getArgs_eq]
    dsimp only
    rw [hm, hm2]
    have hcall2 : ({ i with allow := [] } : Inputs).call = i.call := rfl
    rw [hcall2]
    by_cases hc : i.call ≠ "" ∧ versionSatisfies tk.buildxVersion v0_16_0 = false
    · rw [if_pos hc, if_pos hc]
    · rw [if_neg hc, if_neg hc, hb]
      rfl

/-- Witness for C5 (amended) on a 0.5.0 orchestrator. -/
theorem allow_gate_witness :
    (getArgs c5Inputs noExporterDef (mkToolkit ⟨0, 5, 0⟩) optOutEnv
        privateGitHub).fst = c5Inputs ∧
    (getArgs c5Inputs noExporterDef (mkToolkit ⟨0, 5, 0⟩) optOutEnv
        privateGitHub).snd =
      (getArgs { c5Inputs with allow := [] } noExporterDef
        (mkToolkit ⟨0, 5, 0⟩) optOutEnv privateGitHub).snd :=
  allow_gate c5Inputs noExporterDef (mkToolkit ⟨0, 5, 0⟩) optOutEnv
    privateGitHub rfl

/-- C6: with an empty `provenance` input and a 0.10.0 orchestrator, a
default `--provenance` pair is produced exactly when the opt-out is unset,
the backend is at least 0.11.0 and the definition has no direct-to-engine
exporter given the load request; its value resolves
`mode=min,inline-only=true` for a private repository and `mode=max` for a
public or unknown one; a set opt-out always suppresses it. The pair, when
produced, occurs verbatim inside the successful output of `getArgs`. -/
theorem default_provenance_policy (i : Inputs) (d : BakeDefinition)
    (tk : Toolkit) (env : Env) (gh : GitHubCtx)
    (hp : i.provenance = "")
    (h10 : versionSatisfies tk.buildxVersion v0_10_0 = true) :
    ((provenanceArgs i d tk env gh ≠ []) ↔
      (noDefaultAttestations env = false ∧
        versionSatisfies (tk.buildkitVersion i.builder) v0_11_0 = true ∧
        d.hasDockerExporter i.load = false)) ∧
    (noDefaultAttestations env = false →
      versionSatisfies (tk.buildkitVersion i.builder) v0_11_0 = true →
      d.hasDockerExporter i.load = false →
      provenanceArgs i d tk env gh =
        ["--provenance", env.resolveProvenanceAttrs
          (if gh.repositoryPrivate.getD false then "mode=min,inline-only=true"
            else "mode=max")]) ∧
    (noDefaultAttestations env = true → provenanceArgs i d tk env gh = []) ∧
    (∀ l, (getArgs i d tk env gh).snd = Except.ok l →
      List.IsInfix (provenanceArgs i d tk env gh) l) := by
  have hpe : provenanceArgs i d tk env gh =
      if (!(noDefaultAttestations env) &&
          versionSatisfies (tk.buildkitVersion i.builder) v0_11_0 &&
          !(d.hasDockerExporter i.load)) then
        (if gh.repositoryPrivate.getD false then
          ["--provenance", env.resolveProvenanceAttrs ("mode=min,inline-only=true")]
        else
          ["--provenance", env.resolveProvenanceAttrs ("mode=max")])
      else [] := by
    unfold provenanceArgs
    rw [if_pos hp]
  refine ⟨?_, ?_, ?_, ?_⟩
  · rw [hpe]
    by_cases hcond : (!(noDefaultAttestations env) &&
        versionSatisfies (tk.buildkitVersion i.builder) v0_11_0 &&
        !(d.hasDockerExporter i.load)) = true
    · rw [if_pos hcond]
      simp only [Bool.and_eq_true, Bool.not_eq_true'] at hcond
      constructor
      · intro _
        exact ⟨hcond.1.1, hcond.1.2, hcond.2⟩
      · intro _
        cases hpriv : gh.repositoryPrivate.getD false <;> simp [hpriv]
    · rw [if_neg hcond]
      constructor
      · intro h
        exact absurd rfl h
      · rintro ⟨h1, h2, h3⟩
        exact absurd (by simp [h1, h2, h3]) hcond
  · intro hA hB hC
    rw [hpe, hA, hB, hC]
    cases hpriv : gh.repositoryPrivate.getD false <;> simp [hpriv]
  · intro hA
    rw [hpe, hA]
    simp
  · intro l hl
    rw [getArgs_eq] at hl
    dsimp only at hl
    by_cases hg : (mutateAllowInputs i tk).call ≠ "" ∧
        versionSatisfies tk.buildxVersion v0_16_0 = false
    · rw [if_pos hg] at hl
      cases hl
    · rw [if_neg hg] at hl
      injection hl with hl
      subst hl
      have hatt : attestationArgs (mutateAllowInputs i tk) d tk env gh =
          provenanceArgs i d tk env gh ++
            sbomArgs (mutateAllowInputs i tk) := by
        unfold attestationArgs
        rw [h10, provenanceArgs_mutate]
        rfl
      refine ⟨["bake"] ++ sourceArgs (mutateAllowInputs i tk) ++
          allowArgs (mutateAllowInputs i tk) tk ++
          callArgs (mutateAllowInputs i tk) ++
          fileArgs (mutateAllowInputs i tk) ++
          setArgs (mutateAllowInputs i tk) ++ metadataArgs tk,
        sbomArgs (mutateAllowInputs i tk) ++
          getCommonArgs (mutateAllowInputs i tk) ++
          (mutateAllowInputs i tk).targets, ?_⟩
      unfold bakeTokens
      rw [hatt]
      simp [List.append_assoc]

/-- Witness for C6: private repository, all gates satisfied, minimal-mode
default provenance. -/
theorem default_provenance_policy_witness :
    provenanceArgs emptyInputs noExporterDef (mkToolkit v0_18_0) plainEnv
        privateGitHub =
      ["--provenance", plainEnv.resolveProvenanceAttrs
        (if privateGitHub.repositoryPrivate.getD false then
          "mode=min,inline-only=true" else "mode=max")] :=
  (default_provenance_policy emptyInputs noExporterDef (mkToolkit v0_18_0)
      plainEnv privateGitHub rfl rfl).2.1 rfl rfl rfl

/-- C7: a resolved source equal to the literal `.` collapses to the empty
string; an empty rendered result falls back to the ambient context (itself
subject to the same `.` normalization); an empty final source emits no
positional source token. -/
theorem source_normalization :
    (∀ render raw ctx, render raw ctx = Except.ok (".") →
      getSourceInput render raw ctx = Except.ok ("")) ∧
    (∀ render raw ctx, render raw ctx = Except.ok ("") →
      getSourceInput render raw ctx =
        Except.ok (if ctx = "." then "" else ctx)) ∧
    (∀ i : Inputs, i.source = "" → sourceArgs i = []) := by
  refine ⟨?_, ?_, ?_⟩
  · intro render raw ctx h
    unfold getSourceInput
    rw [h]
    rfl
  · intro render raw ctx h
    unfold getSourceInput
    rw [h]
    rfl
  · intro i h
    unfold sourceArgs
    rw [h]
    rfl

/-- Witness for C7: a render producing `.` yields an empty source. -/
theorem source_normalization_witness :
    getSourceInput (fun _ _ => Except.ok (".")) ("tpl") ("ctx") =
      Except.ok ("") :=
  source_normalization.1 _ ("tpl") ("ctx") rfl

/-- Counterexample to C8 as stated: a failing template render is not
swallowed — `getSourceInput` returns the render error rather than falling
back to the ambient context string. -/
theorem source_template_failure_counterexample :
    getSourceInput (fun _ _ => Except.error ("boom")) ("tpl") ("ctx") =
      Except.error ("boom") ∧
    ¬(getSourceInput (fun _ _ => Except.error ("boom")) ("tpl") ("ctx") =
      Except.ok ("ctx")) :=
  ⟨rfl, fun h => Except.noConfusion h⟩

/-- C8 (amended): a template render failure propagates unmodified out of
source resolution (there is no handler around the render step); only an
empty successful render falls back to the ambient context. -/
theorem source_template_failure_propagates
    (render : String → String → Except String String)
    (raw ctx e : String) (h : render raw ctx = Except.error e) :
    getSourceInput render raw ctx = Except.error e := by
  unfold getSourceInput
  rw [h]

/-- Witness for C8 (amended). -/
theorem source_template_failure_propagates_witness :
    getSourceInput (fun _ _ => Except.error ("bad template")) ("t") ("c") =
      Except.error ("bad template") :=
  source_template_failure_propagates _ ("t") ("c") ("bad template") rfl

end BakeAction
